import Mathlib

/-!
Shallow embedding of `generate_favicons.py`: a sequential script that loads
`icon.png`, converts it to RGBA, saves eight square PNG resizes, one
multi-size `favicon.ico` container, and one `apple-touch-icon.png`, printing
a progress line after each file and a final summary line.

Images are modelled by their dimensions, colour mode and an opaque pixel
token; the imaging library's operations (decode, convert, Lanczos resize)
are deterministic constructors on that token, which is exactly what the
claims need (dimensions, determinism, which files are written, in what
order).  The filesystem is a pair of maps (directories, files); console
output and saves are recorded in an event trace.
-/

namespace Favicons

/-- Resampling filters passed to `Image.resize`; the script only ever uses
`Image.LANCZOS`. -/
inductive Filter where
  | lanczos
deriving DecidableEq, Repr

/-- Colour modes; the script converts the source to `"RGBA"`. -/
inductive Mode where
  | rgba
  | raw (tag : Nat)
deriving DecidableEq, Repr

/-- Opaque pixel contents.  Decoding, mode conversion and resizing are
deterministic, so contents are modelled as a term built from the source
pixels by the operations applied to them. -/
inductive Pix where
  | sourcePixels (id : Nat)
  | converted (p : Pix) (m : Mode)
  | resampled (p : Pix) (w h : Nat) (f : Filter)
deriving DecidableEq, Repr

/-- An in-memory decoded raster: dimensions, mode and pixel contents. -/
structure Img where
  width : Nat
  height : Nat
  mode : Mode
  pix : Pix
deriving DecidableEq, Repr

/-- `img.convert(mode)`: same dimensions, new mode, deterministically
converted pixels. -/
def Img.convert (img : Img) (m : Mode) : Img :=
  ⟨img.width, img.height, m, .converted img.pix m⟩

/-- `img.resize((w, h), filter)`: the result has exactly the requested
dimensions, same mode, pixels produced by the (deterministic) resampling
filter. -/
def Img.resize (img : Img) (sz : Nat × Nat) (f : Filter) : Img :=
  ⟨sz.1, sz.2, img.mode, .resampled img.pix sz.1 sz.2 f⟩

/-- Contents of a file written by the script: a single-image PNG, or the
ICO container holding a primary image, appended alternate images, and the
size list passed to the encoder. -/
inductive FileData where
  | png (image : Img)
  | ico (primary : Img) (alternates : List Img) (entrySizes : List (Nat × Nat))
deriving DecidableEq, Repr

/-- The filesystem: which directories exist and what each path holds. -/
structure FS where
  dirs : String → Bool
  files : String → Option FileData

/-- `os.makedirs(path, exist_ok=True)`: marks the directory as existing. -/
def FS.makedirs (fs : FS) (path : String) : FS :=
  ⟨fun d => if d = path then true else fs.dirs d, fs.files⟩

/-- `image.save(path)` / writing a file: replaces whatever `path` held. -/
def FS.write (fs : FS) (path : String) (d : FileData) : FS :=
  ⟨fs.dirs, fun q => if q = path then some d else fs.files q⟩

/-- Observable events of a run, in program order. -/
inductive Event where
  | mkdir (path : String)
  | save (path : String) (d : FileData)
  | print (line : String)
deriving DecidableEq, Repr

/-- Errors that abort the run. -/
inductive RunError where
  | decodeError
  | writeError (path : String)
deriving DecidableEq, Repr

/-- The environment a run executes in: the result of decoding `icon.png`
(`none` when the file is missing, unreadable or not a decodable raster),
and which paths the filesystem accepts writes to. -/
structure Env where
  sourceImage : Option Img
  writeOk : String → Bool

/-- Outcome of a run: final filesystem, event trace, and the error that
terminated it, if any. -/
structure RunResult where
  fs : FS
  trace : List Event
  error : Option RunError

/-- One `save` + `print` step of the script: target path, file contents,
progress line. -/
structure SaveJob where
  path : String
  data : FileData
  msg : String
deriving DecidableEq, Repr

def SOURCE : String := "icon.png"

def OUTPUT_DIR : String := "favicons"

/-- `os.path.join(OUTPUT_DIR, name)`. -/
def joinPath (dir name : String) : String := dir ++ "/" ++ name

/-- `sizes = [16, 32, 48, 64, 128, 180, 192, 512]`. -/
def sizes : List Nat := [16, 32, 48, 64, 128, 180, 192, 512]

/-- `ico_sizes = [(16, 16), (32, 32), (48, 48), (64, 64)]`. -/
def ico_sizes : List (Nat × Nat) := [(16, 16), (32, 32), (48, 48), (64, 64)]

/-- `f"favicon-{size}x{size}.png"`. -/
def pngName (size : Nat) : String :=
  "favicon-" ++ toString size ++ "x" ++ toString size ++ ".png"

/-- `ico_images = [img.resize(s, Image.LANCZOS) for s in ico_sizes]`. -/
def ico_images (img : Img) : List Img :=
  ico_sizes.map fun s => img.resize s .lanczos

/-- The nine-…ten save-then-print steps of the script, in program order:
the `for size in sizes` loop, the `favicon.ico` container save, and the
`apple-touch-icon.png` save. -/
def saveJobs (img : Img) : List SaveJob :=
  (sizes.map fun size =>
    { path := joinPath OUTPUT_DIR (pngName size)
      data := .png (img.resize (size, size) .lanczos)
      msg := "Created " ++ pngName size })
  ++ [{ path := joinPath OUTPUT_DIR "favicon.ico"
        data := .ico ((ico_images img).headD img) ((ico_images img).tail) ico_sizes
        msg := "Created favicon.ico" }]
  ++ [{ path := joinPath OUTPUT_DIR "apple-touch-icon.png"
        data := .png (img.resize (180, 180) .lanczos)
        msg := "Created apple-touch-icon.png" }]

/-- Runs the save/print steps sequentially: each save either succeeds (the
file is written, then its progress line printed) or fails, terminating the
run at once with a write error and no further steps. -/
def runJobs (env : Env) : FS → List Event → List SaveJob →
    FS × List Event × Option RunError
  | fs, tr, [] => (fs, tr, none)
  | fs, tr, j :: rest =>
    if env.writeOk j.path then
      runJobs env (fs.write j.path j.data)
        (tr ++ [Event.save j.path j.data, Event.print j.msg]) rest
    else
      (fs, tr, some (.writeError j.path))

/-- `print(f"\nAll favicons saved to '{OUTPUT_DIR}/'")`. -/
def finalLine : String :=
  "\nAll favicons saved to " ++ String.singleton (Char.ofNat 39)
    ++ OUTPUT_DIR ++ "/" ++ String.singleton (Char.ofNat 39)

/-- The whole script: make the output directory (`exist_ok=True`), open and
convert the source (aborting with a decode error if it cannot be decoded),
then run every save/print step, finishing with the summary line. -/
def generate_favicons (env : Env) (fs0 : FS) : RunResult :=
  let fs1 := fs0.makedirs OUTPUT_DIR
  let tr1 := [Event.mkdir OUTPUT_DIR]
  match env.sourceImage with
  | none => ⟨fs1, tr1, some .decodeError⟩
  | some raw =>
    let img := raw.convert .rgba
    match runJobs env fs1 tr1 (saveJobs img) with
    | (fs, tr, some e) => ⟨fs, tr, some e⟩
    | (fs, tr, none) => ⟨fs, tr ++ [Event.print finalLine], none⟩

/-! ### Derived notions used by the statements -/

/-- The ten paths the script writes, in program order. -/
def outputPaths : List String :=
  (sizes.map fun s => joinPath OUTPUT_DIR (pngName s))
  ++ [joinPath OUTPUT_DIR "favicon.ico", joinPath OUTPUT_DIR "apple-touch-icon.png"]

/-- The file contents written by a sequence of jobs, in order. -/
def writeAll (jobs : List SaveJob) (fs : FS) : FS :=
  jobs.foldl (fun f j => f.write j.path j.data) fs

/-- The events a fully successful sequence of jobs emits. -/
def jobEvents (jobs : List SaveJob) : List Event :=
  jobs.flatMap fun j => [Event.save j.path j.data, Event.print j.msg]

/-- The paths of the save events of a trace, in order. -/
def writtenPaths (r : RunResult) : List String :=
  r.trace.filterMap fun e =>
    match e with
    | .save p _ => some p
    | _ => none

/-- The console lines of a trace, in order. -/
def printedLines (r : RunResult) : List String :=
  r.trace.filterMap fun e =>
    match e with
    | .print s => some s
    | _ => none

/-- A raster is square when its width equals its height. -/
def Img.squareB (i : Img) : Bool := i.width == i.height

/-- The dimensions of every raster a file holds (the single PNG image, or
all embedded ICO images). -/
def FileData.dims : FileData → List (Nat × Nat)
  | .png i => [(i.width, i.height)]
  | .ico p alts _ => (p :: alts).map fun i => (i.width, i.height)

/-- All square target dimensions appearing in the script's constants. -/
def targetDims : List (Nat × Nat) := sizes.map fun s => (s, s)

/-! ### Helper lemmas about the run -/

theorem FS.makedirs_files (fs : FS) (d : String) :
    (fs.makedirs d).files = fs.files := rfl

theorem saveJobs_paths (img : Img) :
    (saveJobs img).map SaveJob.path = outputPaths := rfl

theorem outputPaths_nodup : outputPaths.Nodup := by decide

theorem writeAll_dirs (jobs : List SaveJob) (fs : FS) :
    (writeAll jobs fs).dirs = fs.dirs := by
  induction jobs generalizing fs with
  | nil => rfl
  | cons j rest ih => simpa [writeAll, FS.write] using ih (fs.write j.path j.data)

theorem writeAll_files_not_mem (p : String) (jobs : List SaveJob) (fs : FS)
    (hp : p ∉ jobs.map SaveJob.path) :
    (writeAll jobs fs).files p = fs.files p := by
  induction jobs generalizing fs with
  | nil => rfl
  | cons j rest ih =>
    simp only [List.map_cons, List.mem_cons, not_or] at hp
    simpa [writeAll, FS.write, hp.1] using ih (fs.write j.path j.data) hp.2

theorem writeAll_files_mem (jobs : List SaveJob) (hnd : (jobs.map SaveJob.path).Nodup)
    (j : SaveJob) (hj : j ∈ jobs) (fs : FS) :
    (writeAll jobs fs).files j.path = some j.data := by
  induction jobs generalizing fs with
  | nil => cases hj
  | cons k rest ih =>
    simp only [List.map_cons, List.nodup_cons] at hnd
    rcases List.mem_cons.mp hj with h | h
    · subst h
      have hnot : j.path ∉ rest.map SaveJob.path := hnd.1
      have hstep : writeAll (j :: rest) fs = writeAll rest (fs.write j.path j.data) := rfl
      rw [hstep, writeAll_files_not_mem j.path rest (fs.write j.path j.data) hnot]
      simp [FS.write]
    · exact (ih hnd.2 h (fs.write k.path k.data))

theorem runJobs_ok (env : Env) (h : ∀ p, env.writeOk p = true) :
    ∀ (jobs : List SaveJob) (fs : FS) (tr : List Event),
      runJobs env fs tr jobs = (writeAll jobs fs, tr ++ jobEvents jobs, none)
  | [], fs, tr => by simp [runJobs, writeAll, jobEvents]
  | j :: rest, fs, tr => by
    simp [runJobs, h, writeAll, jobEvents, runJobs_ok env h rest]

theorem runJobs_fail (env : Env) :
    ∀ (pre : List SaveJob) (j : SaveJob) (post : List SaveJob) (fs : FS) (tr : List Event),
      (∀ i ∈ pre, env.writeOk i.path = true) → env.writeOk j.path = false →
      runJobs env fs tr (pre ++ j :: post) =
        (writeAll pre fs, tr ++ jobEvents pre, some (.writeError j.path))
  | [], j, post, fs, tr, _, hj => by simp [runJobs, hj, writeAll, jobEvents]
  | i :: pre, j, post, fs, tr, hpre, hj => by
    have hi : env.writeOk i.path = true := hpre i (List.mem_cons_self i pre)
    have hrest : ∀ k ∈ pre, env.writeOk k.path = true :=
      fun k hk => hpre k (List.mem_cons_of_mem i hk)
    simp [runJobs, hi, writeAll, jobEvents,
      runJobs_fail env pre j post (fs.write i.path i.data)
        (tr ++ [Event.save i.path i.data, Event.print i.msg]) hrest hj]

theorem runJobs_save_events (env : Env) :
    ∀ (jobs : List SaveJob) (fs : FS) (tr : List Event) (q : String) (d : FileData),
      Event.save q d ∈ (runJobs env fs tr jobs).2.1 →
      Event.save q d ∈ tr ∨ ∃ j ∈ jobs, j.path = q ∧ j.data = d
  | [], fs, tr, q, d => by
    intro h
    exact Or.inl h
  | j :: rest, fs, tr, q, d => by
    intro h
    by_cases hw : env.writeOk j.path
    · rw [runJobs, if_pos hw] at h
      rcases runJobs_save_events env rest _ _ q d h with h' | ⟨k, hk, hkq⟩
      · rcases List.mem_append.mp h' with h'' | h''
        · exact Or.inl h''
        · simp only [List.mem_cons, List.not_mem_nil, or_false] at h''
          rcases h'' with h'' | h''
          · injection h'' with hq hd
            exact Or.inr ⟨j, List.mem_cons_self j rest, hq.symm, hd.symm⟩
          · simp at h''
      · exact Or.inr ⟨k, List.mem_cons_of_mem j hk, hkq⟩
    · rw [runJobs, if_neg hw] at h
      exact Or.inl h

/-- A fully successful run: every write is accepted and the source decodes. -/
theorem generate_favicons_ok (env : Env) (fs0 : FS) (raw : Img)
    (hs : env.sourceImage = some raw) (hw : ∀ p, env.writeOk p = true) :
    generate_favicons env fs0 =
      ⟨writeAll (saveJobs (raw.convert .rgba)) (fs0.makedirs OUTPUT_DIR),
       (Event.mkdir OUTPUT_DIR :: jobEvents (saveJobs (raw.convert .rgba)))
         ++ [Event.print finalLine],
       none⟩ := by
  simp [generate_favicons, hs, runJobs_ok env hw]

theorem runJobs_files_frame (env : Env) (p : String) :
    ∀ (jobs : List SaveJob) (fs : FS) (tr : List Event),
      p ∉ jobs.map SaveJob.path →
      (runJobs env fs tr jobs).1.files p = fs.files p
  | [], _, _, _ => rfl
  | j :: rest, fs, tr, hp => by
    simp only [List.map_cons, List.mem_cons, not_or] at hp
    by_cases hw : env.writeOk j.path
    · rw [runJobs, if_pos hw,
        runJobs_files_frame env p rest _ _ hp.2]
      simp [FS.write, hp.1]
    · rw [runJobs, if_neg hw]

/-- Every job writes a file whose rasters are all square with dimensions
taken from the fixed target sizes. -/
theorem saveJobs_data_square (img : Img) :
    ∀ j ∈ saveJobs img,
      j.data.dims.all (fun wh => wh.1 == wh.2 && targetDims.contains wh) = true := by
  intro j hj
  fin_cases hj <;> rfl

/-- Every save event of any run comes from one of the script's save jobs
(in particular the source must have decoded). -/
theorem generate_save_events (env : Env) (fs0 : FS) (q : String) (d : FileData) :
    Event.save q d ∈ (generate_favicons env fs0).trace →
    ∃ raw, env.sourceImage = some raw ∧
      ∃ j ∈ saveJobs (raw.convert .rgba), j.path = q ∧ j.data = d := by
  intro hmem
  cases hs : env.sourceImage with
  | none => simp_all [generate_favicons]
  | some raw =>
    rcases hr : runJobs env (fs0.makedirs OUTPUT_DIR) [Event.mkdir OUTPUT_DIR]
        (saveJobs (raw.convert .rgba)) with ⟨fs, tr, err⟩
    have htr : Event.save q d ∈ tr := by
      rcases err with _ | e <;> simp_all [generate_favicons, hr]
    have htr' : Event.save q d ∈
        (runJobs env (fs0.makedirs OUTPUT_DIR) [Event.mkdir OUTPUT_DIR]
          (saveJobs (raw.convert .rgba))).2.1 := by
      rw [hr]; exact htr
    rcases runJobs_save_events env _ _ _ q d htr' with h | hj
    · simp at h
    · exact ⟨raw, rfl, hj⟩

/-! ### Concrete fixtures for witnesses and counterexamples -/

/-- A concrete non-square 800×600 source raster. -/
def rawC : Img := ⟨800, 600, .raw 0, .sourcePixels 0⟩

/-- An empty filesystem. -/
def fsEmpty : FS := ⟨fun _ => false, fun _ => none⟩

/-- Environment where `icon.png` decodes and every write succeeds. -/
def envAllOk : Env := ⟨some rawC, fun _ => true⟩

/-- Environment where `icon.png` is missing or undecodable. -/
def envNoSource : Env := ⟨none, fun _ => true⟩

/-- The RGBA-converted concrete source. -/
def imgC : Img := rawC.convert .rgba

/-- The first eight save jobs (the square PNGs) of the concrete run. -/
def preC : List SaveJob := (saveJobs imgC).take 8

/-- The ninth save job (the `favicon.ico` container) of the concrete run. -/
def jC : SaveJob :=
  { path := joinPath OUTPUT_DIR "favicon.ico"
    data := .ico ((ico_images imgC).headD imgC) ((ico_images imgC).tail) ico_sizes
    msg := "Created favicon.ico" }

/-- The save jobs after the ninth (just the touch icon). -/
def postC : List SaveJob := (saveJobs imgC).drop 9

/-- Environment where the write of `favicon.ico` fails and every other
write succeeds. -/
def envFailIco : Env := ⟨some rawC, fun p => p != joinPath OUTPUT_DIR "favicon.ico"⟩

/-! ### Claim theorems -/

/-- C1: for every decodable source image, the run iterates over the fixed
size list 16, 32, 48, 64, 128, 180, 192, 512 in that order, resizing the
(RGBA-converted) source to S×S with the Lanczos filter, saving it as
`favicon-{S}x{S}.png` in the output directory and emitting one progress
line per file; afterwards each such file holds exactly that resize. -/
theorem square_pngs_generated (env : Env) (fs0 : FS) (raw : Img)
    (hs : env.sourceImage = some raw) (hw : ∀ p, env.writeOk p = true) :
    ((generate_favicons env fs0).trace.take 17 =
      Event.mkdir OUTPUT_DIR ::
        (sizes.flatMap fun S =>
          [Event.save (joinPath OUTPUT_DIR (pngName S))
             (.png ((raw.convert .rgba).resize (S, S) .lanczos)),
           Event.print ("Created " ++ pngName S)]))
    ∧ ∀ S ∈ sizes,
        (generate_favicons env fs0).fs.files (joinPath OUTPUT_DIR (pngName S)) =
          some (.png ((raw.convert .rgba).resize (S, S) .lanczos)) := by
  rw [generate_favicons_ok env fs0 raw hs hw]
  refine ⟨rfl, ?_⟩
  intro S hS
  fin_cases hS <;> rfl

/-- C1 witness at an 800×600 source with all writes accepted. -/
theorem square_pngs_generated_witness :
    ((generate_favicons envAllOk fsEmpty).trace.take 17 =
      Event.mkdir OUTPUT_DIR ::
        (sizes.flatMap fun S =>
          [Event.save (joinPath OUTPUT_DIR (pngName S))
             (.png ((rawC.convert .rgba).resize (S, S) .lanczos)),
           Event.print ("Created " ++ pngName S)]))
    ∧ (generate_favicons envAllOk fsEmpty).fs.files (joinPath OUTPUT_DIR (pngName 16)) =
        some (.png ((rawC.convert .rgba).resize (16, 16) .lanczos)) :=
  ⟨(square_pngs_generated envAllOk fsEmpty rawC rfl (fun _ => rfl)).1,
   (square_pngs_generated envAllOk fsEmpty rawC rfl (fun _ => rfl)).2 16 (by decide)⟩

/-- C2: the run combines exactly the four Lanczos resizes at (16,16),
(32,32), (48,48), (64,64), in that order, into `favicon.ico`, with the
16×16 raster as the primary entry and the other three as appended
alternates. -/
theorem ico_container_contents (env : Env) (fs0 : FS) (raw : Img)
    (hs : env.sourceImage = some raw) (hw : ∀ p, env.writeOk p = true) :
    (generate_favicons env fs0).fs.files (joinPath OUTPUT_DIR "favicon.ico") =
      some (.ico ((raw.convert .rgba).resize (16, 16) .lanczos)
        [(raw.convert .rgba).resize (32, 32) .lanczos,
         (raw.convert .rgba).resize (48, 48) .lanczos,
         (raw.convert .rgba).resize (64, 64) .lanczos]
        [(16, 16), (32, 32), (48, 48), (64, 64)]) := by
  rw [generate_favicons_ok env fs0 raw hs hw]
  rfl

/-- C2 witness at an 800×600 source with all writes accepted. -/
theorem ico_container_contents_witness :
    (generate_favicons envAllOk fsEmpty).fs.files (joinPath OUTPUT_DIR "favicon.ico") =
      some (.ico ((rawC.convert .rgba).resize (16, 16) .lanczos)
        [(rawC.convert .rgba).resize (32, 32) .lanczos,
         (rawC.convert .rgba).resize (48, 48) .lanczos,
         (rawC.convert .rgba).resize (64, 64) .lanczos]
        [(16, 16), (32, 32), (48, 48), (64, 64)]) :=
  ico_container_contents envAllOk fsEmpty rawC rfl (fun _ => rfl)

/-- C7: the run saves the 180×180 Lanczos resize of the source as
`apple-touch-icon.png` in the output directory, and that raster's width and
height are exactly 180. -/
theorem touch_icon_180 (env : Env) (fs0 : FS) (raw : Img)
    (hs : env.sourceImage = some raw) (hw : ∀ p, env.writeOk p = true) :
    (generate_favicons env fs0).fs.files (joinPath OUTPUT_DIR "apple-touch-icon.png") =
      some (.png ((raw.convert .rgba).resize (180, 180) .lanczos))
    ∧ ((raw.convert .rgba).resize (180, 180) .lanczos).width = 180
    ∧ ((raw.convert .rgba).resize (180, 180) .lanczos).height = 180 := by
  rw [generate_favicons_ok env fs0 raw hs hw]
  exact ⟨rfl, rfl, rfl⟩

/-- C7 witness at an 800×600 source with all writes accepted. -/
theorem touch_icon_180_witness :
    (generate_favicons envAllOk fsEmpty).fs.files (joinPath OUTPUT_DIR "apple-touch-icon.png") =
      some (.png ((rawC.convert .rgba).resize (180, 180) .lanczos))
    ∧ ((rawC.convert .rgba).resize (180, 180) .lanczos).width = 180
    ∧ ((rawC.convert .rgba).resize (180, 180) .lanczos).height = 180 :=
  touch_icon_180 envAllOk fsEmpty rawC rfl (fun _ => rfl)

/-- C9: on a successful run the trace is, in order: the mkdir, then for
each of the eight square sizes a save immediately followed by its
`Created favicon-{S}x{S}.png` line, then the `favicon.ico` save and its
line, then the touch-icon save and its line, then the final summary line
naming the output directory; so the console shows exactly those eleven
lines in that order, each printed after its file is saved. -/
theorem console_output_order (env : Env) (fs0 : FS) (raw : Img)
    (hs : env.sourceImage = some raw) (hw : ∀ p, env.writeOk p = true) :
    (generate_favicons env fs0).trace =
      Event.mkdir OUTPUT_DIR ::
        ((sizes.flatMap fun S =>
            [Event.save (joinPath OUTPUT_DIR (pngName S))
               (.png ((raw.convert .rgba).resize (S, S) .lanczos)),
             Event.print ("Created " ++ pngName S)])
          ++ [Event.save (joinPath OUTPUT_DIR "favicon.ico")
                (.ico ((raw.convert .rgba).resize (16, 16) .lanczos)
                  [(raw.convert .rgba).resize (32, 32) .lanczos,
                   (raw.convert .rgba).resize (48, 48) .lanczos,
                   (raw.convert .rgba).resize (64, 64) .lanczos] ico_sizes),
              Event.print "Created favicon.ico",
              Event.save (joinPath OUTPUT_DIR "apple-touch-icon.png")
                (.png ((raw.convert .rgba).resize (180, 180) .lanczos)),
              Event.print "Created apple-touch-icon.png",
              Event.print finalLine])
    ∧ printedLines (generate_favicons env fs0) =
        (sizes.map fun S => "Created " ++ pngName S)
          ++ ["Created favicon.ico", "Created apple-touch-icon.png", finalLine] := by
  rw [generate_favicons_ok env fs0 raw hs hw]
  exact ⟨rfl, rfl⟩

/-- C9 witness at an 800×600 source with all writes accepted. -/
theorem console_output_order_witness :
    printedLines (generate_favicons envAllOk fsEmpty) =
      (sizes.map fun S => "Created " ++ pngName S)
        ++ ["Created favicon.ico", "Created apple-touch-icon.png", finalLine] :=
  (console_output_order envAllOk fsEmpty rawC rfl (fun _ => rfl)).2

/-- C4: when `icon.png` is missing, unreadable or not a decodable raster,
the run terminates with the decode-stage error, no path in the output
directory changes, and no save event occurs at all. -/
theorem missing_source_decode_error (env : Env) (fs0 : FS)
    (hs : env.sourceImage = none) :
    (generate_favicons env fs0).error = some .decodeError
    ∧ (∀ p, (generate_favicons env fs0).fs.files p = fs0.files p)
    ∧ writtenPaths (generate_favicons env fs0) = [] := by
  refine ⟨?_, ?_, ?_⟩ <;> simp [generate_favicons, hs, writtenPaths, FS.makedirs]

/-- C4 witness: the environment with no decodable source. -/
theorem missing_source_decode_error_witness :
    (generate_favicons envNoSource fsEmpty).error = some .decodeError
    ∧ (generate_favicons envNoSource fsEmpty).fs.files
        (joinPath OUTPUT_DIR (pngName 16)) = fsEmpty.files (joinPath OUTPUT_DIR (pngName 16))
    ∧ writtenPaths (generate_favicons envNoSource fsEmpty) = [] :=
  ⟨(missing_source_decode_error envNoSource fsEmpty rfl).1,
   (missing_source_decode_error envNoSource fsEmpty rfl).2.1 _,
   (missing_source_decode_error envNoSource fsEmpty rfl).2.2⟩

/-- C10: the output directory is created (with exist_ok semantics) before
the source image is opened: even a run that fails at the decode stage has
the directory created, its whole trace is just the mkdir, and zero files
are written. -/
theorem makedirs_before_open (env : Env) (fs0 : FS)
    (hs : env.sourceImage = none) :
    (generate_favicons env fs0).fs.dirs OUTPUT_DIR = true
    ∧ (generate_favicons env fs0).trace = [Event.mkdir OUTPUT_DIR]
    ∧ (generate_favicons env fs0).error = some .decodeError
    ∧ (∀ p, (generate_favicons env fs0).fs.files p = fs0.files p) := by
  refine ⟨?_, ?_, ?_, ?_⟩ <;> simp [generate_favicons, hs, FS.makedirs]

/-- C10 witness: a decode-stage failure on an empty filesystem still leaves
the directory created. -/
theorem makedirs_before_open_witness :
    (generate_favicons envNoSource fsEmpty).fs.dirs OUTPUT_DIR = true
    ∧ (generate_favicons envNoSource fsEmpty).trace = [Event.mkdir OUTPUT_DIR] :=
  ⟨(makedirs_before_open envNoSource fsEmpty rfl).1,
   (makedirs_before_open envNoSource fsEmpty rfl).2.1⟩

/-- C5: running the script twice on an unchanged source and the directory
left by the first run is idempotent: the second run's filesystem agrees
with the first run's at every path (pixel-identical outputs), and it emits
the same trace. -/
theorem rerun_idempotent (env : Env) (fs0 : FS) (raw : Img)
    (hs : env.sourceImage = some raw) (hw : ∀ p, env.writeOk p = true) :
    (∀ p, (generate_favicons env (generate_favicons env fs0).fs).fs.files p =
          (generate_favicons env fs0).fs.files p)
    ∧ (generate_favicons env (generate_favicons env fs0).fs).trace =
        (generate_favicons env fs0).trace := by
  rw [generate_favicons_ok env fs0 raw hs hw]
  rw [generate_favicons_ok env _ raw hs hw]
  refine ⟨?_, rfl⟩
  intro p
  by_cases hp : p ∈ (saveJobs (raw.convert .rgba)).map SaveJob.path
  · rcases List.mem_map.mp hp with ⟨j, hj, hjp⟩
    subst hjp
    have hnd : ((saveJobs (raw.convert .rgba)).map SaveJob.path).Nodup := by
      rw [saveJobs_paths]; exact outputPaths_nodup
    rw [writeAll_files_mem _ hnd j hj, writeAll_files_mem _ hnd j hj]
  · have hfr : ∀ fs : FS, (writeAll (saveJobs (raw.convert .rgba)) fs).files p = fs.files p :=
      fun fs => writeAll_files_not_mem p _ fs hp
    simp only [hfr, FS.makedirs_files]

/-- C5 witness: second run over the first run's filesystem agrees at the
16×16 PNG path and repeats the trace. -/
theorem rerun_idempotent_witness :
    (generate_favicons envAllOk (generate_favicons envAllOk fsEmpty).fs).fs.files
        (joinPath OUTPUT_DIR (pngName 16)) =
      (generate_favicons envAllOk fsEmpty).fs.files (joinPath OUTPUT_DIR (pngName 16))
    ∧ (generate_favicons envAllOk (generate_favicons envAllOk fsEmpty).fs).trace =
        (generate_favicons envAllOk fsEmpty).trace :=
  ⟨(rerun_idempotent envAllOk fsEmpty rawC rfl (fun _ => rfl)).1 _,
   (rerun_idempotent envAllOk fsEmpty rawC rfl (fun _ => rfl)).2⟩

/-- C6: for every source image, square or not, and any write behaviour,
every file the run saves holds only square rasters whose dimensions are
among the fixed target sizes — including each image embedded inside the
icon container. -/
theorem outputs_square (env : Env) (fs0 : FS) (raw : Img)
    (hs : env.sourceImage = some raw) :
    ∀ q d, Event.save q d ∈ (generate_favicons env fs0).trace →
      d.dims.all (fun wh => wh.1 == wh.2 && targetDims.contains wh) = true := by
  intro q d hmem
  rcases hr : runJobs env (fs0.makedirs OUTPUT_DIR) [Event.mkdir OUTPUT_DIR]
      (saveJobs (raw.convert .rgba)) with ⟨fs, tr, err⟩
  have htr : Event.save q d ∈ tr := by
    rcases err with _ | e <;>
      simp_all [generate_favicons, hs, hr]
  have htr' : Event.save q d ∈
      (runJobs env (fs0.makedirs OUTPUT_DIR) [Event.mkdir OUTPUT_DIR]
        (saveJobs (raw.convert .rgba))).2.1 := by
    rw [hr]; exact htr
  rcases runJobs_save_events env _ _ _ q d htr' with h | ⟨j, hj, hq, hd⟩
  · simp at h
  · exact hd ▸ saveJobs_data_square (raw.convert .rgba) j hj

/-- C6 witness: every save of the run on the non-square 800×600 source has
only square rasters at fixed target sizes; instantiated at the first save
event of the concrete trace. -/
theorem outputs_square_witness :
    Event.save (joinPath OUTPUT_DIR (pngName 16))
        (.png ((rawC.convert .rgba).resize (16, 16) .lanczos))
      ∈ (generate_favicons envAllOk fsEmpty).trace
    ∧ (FileData.png ((rawC.convert .rgba).resize (16, 16) .lanczos)).dims.all
        (fun wh => wh.1 == wh.2 && targetDims.contains wh) = true :=
  ⟨by decide,
   outputs_square envAllOk fsEmpty rawC rfl (joinPath OUTPUT_DIR (pngName 16))
     (.png ((rawC.convert .rgba).resize (16, 16) .lanczos)) (by decide)⟩

/-- C8: when the first failing save is job `j` (all jobs before it in
program order succeed and `j`'s write is refused), the run terminates at
that point with a write error: every artifact written before `j` remains in
place with its written contents, no artifact from `j` on is written, and
the trace stops right after the last successful job's progress line. -/
theorem write_failure_stops_run (env : Env) (fs0 : FS) (raw : Img)
    (pre : List SaveJob) (j : SaveJob) (post : List SaveJob)
    (hs : env.sourceImage = some raw)
    (hsplit : saveJobs (raw.convert .rgba) = pre ++ j :: post)
    (hpre : ∀ i ∈ pre, env.writeOk i.path = true)
    (hj : env.writeOk j.path = false) :
    (generate_favicons env fs0).error = some (.writeError j.path)
    ∧ (∀ i ∈ pre, (generate_favicons env fs0).fs.files i.path = some i.data)
    ∧ (∀ k ∈ j :: post, (generate_favicons env fs0).fs.files k.path = fs0.files k.path)
    ∧ (generate_favicons env fs0).trace = Event.mkdir OUTPUT_DIR :: jobEvents pre := by
  have hnd : ((pre ++ j :: post).map SaveJob.path).Nodup := by
    rw [← hsplit, saveJobs_paths]; exact outputPaths_nodup
  rw [List.map_append] at hnd
  have hrun := runJobs_fail env pre j post (fs0.makedirs OUTPUT_DIR)
    [Event.mkdir OUTPUT_DIR] hpre hj
  have hgen : generate_favicons env fs0 =
      ⟨writeAll pre (fs0.makedirs OUTPUT_DIR),
       Event.mkdir OUTPUT_DIR :: jobEvents pre, some (.writeError j.path)⟩ := by
    simp [generate_favicons, hs, hsplit, hrun]
  rw [hgen]
  refine ⟨rfl, ?_, ?_, rfl⟩
  · intro i hi
    exact writeAll_files_mem pre hnd.of_append_left i hi _
  · intro k hk
    have hknot : k.path ∉ pre.map SaveJob.path := by
      intro hmem
      exact (List.nodup_append.mp hnd).2.2 hmem
        (List.mem_map.mpr ⟨k, hk, rfl⟩)
    rw [writeAll_files_not_mem k.path pre _ hknot]
    rfl

/-- C8 witness: the `favicon.ico` write fails; the eight PNGs written
before it remain, the run stops with a write error and the trace ends at
the eighth progress line. -/
theorem write_failure_stops_run_witness :
    (generate_favicons envFailIco fsEmpty).error =
        some (.writeError (joinPath OUTPUT_DIR "favicon.ico"))
    ∧ (generate_favicons envFailIco fsEmpty).trace =
        Event.mkdir OUTPUT_DIR :: jobEvents preC :=
  ⟨(write_failure_stops_run envFailIco fsEmpty rawC preC jC postC rfl
      (by decide) (by decide) (by decide)).1,
   (write_failure_stops_run envFailIco fsEmpty rawC preC jC postC rfl
      (by decide) (by decide) (by decide)).2.2.2⟩

/-- C3 counterexample: the claim says only nine expected output files are
written, but the run writes ten distinct paths, so no nine-element set of
expected files covers everything written. -/
theorem only_nine_files_counterexample :
    ¬ ∃ expected : Finset String, expected.card = 9 ∧
        ∀ p ∈ writtenPaths (generate_favicons envAllOk fsEmpty), p ∈ expected := by
  rintro ⟨s, hcard, hsub⟩
  have hsubset : (writtenPaths (generate_favicons envAllOk fsEmpty)).toFinset ⊆ s :=
    fun p hp => hsub p (List.mem_toFinset.mp hp)
  have hten : (writtenPaths (generate_favicons envAllOk fsEmpty)).toFinset.card = 10 := by
    decide
  have hle := Finset.card_le_card hsubset
  omega

/-- C3 amended: when the output directory pre-exists with unrelated files,
a run (with any write behaviour and any source) leaves every path outside
the TEN expected output files untouched and never writes to it. -/
theorem untouched_unrelated_files (env : Env) (fs0 : FS) (p : String)
    (hp : p ∉ outputPaths) :
    (generate_favicons env fs0).fs.files p = fs0.files p
    ∧ p ∉ writtenPaths (generate_favicons env fs0) := by
  constructor
  · cases hs : env.sourceImage with
    | none => simp [generate_favicons, hs, FS.makedirs]
    | some raw =>
      rcases hr : runJobs env (fs0.makedirs OUTPUT_DIR) [Event.mkdir OUTPUT_DIR]
          (saveJobs (raw.convert .rgba)) with ⟨fs, tr, err⟩
      have hfp : p ∉ (saveJobs (raw.convert .rgba)).map SaveJob.path := by
        rw [saveJobs_paths]; exact hp
      have hfr := runJobs_files_frame env p (saveJobs (raw.convert .rgba))
        (fs0.makedirs OUTPUT_DIR) [Event.mkdir OUTPUT_DIR] hfp
      rw [hr] at hfr
      rcases err with _ | e <;> simp_all [generate_favicons, hr, FS.makedirs]
  · intro hmem
    rcases List.mem_filterMap.mp hmem with ⟨e, he, hee⟩
    cases e with
    | mkdir q => simp at hee
    | print s => simp at hee
    | save q d =>
      have hq : q = p := by simpa using hee
      subst hq
      rcases generate_save_events env fs0 q d he with ⟨raw, _, j, hj, hjq, _⟩
      exact hp (by
        rw [← saveJobs_paths (raw.convert .rgba)]
        exact hjq ▸ List.mem_map.mpr ⟨j, hj, rfl⟩)

/-- C3-amended witness: a concrete unrelated file in the output directory
is untouched and never written. -/
theorem untouched_unrelated_files_witness :
    (generate_favicons envAllOk fsEmpty).fs.files "favicons/notes.txt" =
      fsEmpty.files "favicons/notes.txt"
    ∧ "favicons/notes.txt" ∉ writtenPaths (generate_favicons envAllOk fsEmpty) :=
  untouched_unrelated_files envAllOk fsEmpty "favicons/notes.txt" (by decide)

end Favicons
